import Mathlib

/-!
Shallow embedding of the greeting script of the `autoformat` repository.

The repository carries two variants of a three-file greeting program:

* the plain variant (`src/main.mjs`): `greet` destructures
  `greeting` and `name` from its parameter, whose default value is the
  object built from the two provider constants, and logs the
  background-highlighted line `greeting, name`; the script then calls
  `greet()` once;
* the typed variant (`main.ts`, shown in the repository walkthrough):
  the parameter has interface type with fields `hello` and `name`,
  defaulted to the object built from the same providers, and the body
  destructures `hello` and `name` before logging.

The providers export the constants `'Hello'` (greeting word) and
`'World'` (subject name).  `chalk.bgMagenta` wraps a plain string in the
ANSI background-magenta open and close codes.  `console.log` is modelled
as one write to standard output.
-/

/-- Value of the constant greeting-word provider (`hello.mjs`). -/
def hello : String := "Hello"

/-- Value of the constant subject-name provider (`world.mjs`). -/
def world : String := "World"

/-- Background-magenta highlight as `chalk.bgMagenta` applies it to a plain
string: ANSI open code 45, close code 49 around the content. -/
def bgMagenta (s : String) : String := "\x1b[45m" ++ s ++ "\x1b[49m"

/-- Runtime JavaScript values relevant here.  A function with no `return`
statement returns `undef`. -/
inductive JSVal where
  | undef
  | null
  | str (s : String)
deriving DecidableEq, Repr

/-- Runtime errors the host runtime can raise while running the composer. -/
inductive JSError where
  | typeError (msg : String)
deriving DecidableEq, Repr

/-- The argument a caller can pass to the composer.

`missing` is a call with no argument; `undef` passes the value `undefined`
explicitly (which, like a missing argument, triggers the default parameter);
`null` passes `null` (destructuring it raises a `TypeError`); `obj` passes an
object whose relevant properties (`greeting`, `hello`, `name`) are each either
absent (`none`) or a string.  No other property is ever read by either
variant, so none other is modelled. -/
inductive Arg where
  | missing
  | undef
  | null
  | obj (greeting : Option String) (hello : Option String) (name : Option String)
deriving DecidableEq, Repr

/-- Interpolation of a destructured property in a template literal: an absent
property destructures to `undefined`, which interpolates as the text
`"undefined"`; a present string interpolates as itself. -/
def interpolate : Option String → String
  | none => "undefined"
  | some s => s

/-- The body shared by both composers once the two relevant properties have
been read: a single `console.log` write of the highlighted
`word, name` line, plus the implicit return value `undefined`.
The result pairs the return value with the list of writes to standard
output. -/
def greetBody (g n : Option String) : JSVal × List String :=
  (JSVal.undef, [bgMagenta (interpolate g ++ ", " ++ interpolate n)])

/-- The plain composer `greet` of `src/main.mjs`, parametrised by the two
provider values so that dependence on the providers can be stated.  The
default parameter (the object with properties `greeting` and `name` holding
the provider values) applies when the argument is missing or `undefined`;
destructuring `null` raises a `TypeError`; otherwise properties `greeting`
and `name` are read from the supplied object. -/
def greetWith (helloV worldV : String) : Arg → Except JSError (JSVal × List String)
  | Arg.missing => Except.ok (greetBody (some helloV) (some worldV))
  | Arg.undef => Except.ok (greetBody (some helloV) (some worldV))
  | Arg.null =>
      Except.error (JSError.typeError "Cannot destructure property of null")
  | Arg.obj g _ n => Except.ok (greetBody g n)

/-- The plain composer exactly as the script uses it: providers plugged in. -/
def greet : Arg → Except JSError (JSVal × List String) :=
  greetWith hello world

/-- The typed composer of `main.ts`, parametrised by the provider values.  It
differs from the plain one in the property it reads for the greeting word:
the interface names it `hello`, and the body destructures `hello` and `name`
from the parameter (default `hello` = greeting provider, `name` = subject
provider). -/
def greetTsWith (helloV worldV : String) : Arg → Except JSError (JSVal × List String)
  | Arg.missing => Except.ok (greetBody (some helloV) (some worldV))
  | Arg.undef => Except.ok (greetBody (some helloV) (some worldV))
  | Arg.null =>
      Except.error (JSError.typeError "Cannot destructure property of null")
  | Arg.obj _ h n => Except.ok (greetBody h n)

/-- The typed composer with the providers plugged in. -/
def greetTs : Arg → Except JSError (JSVal × List String) :=
  greetTsWith hello world

/-- The top-level statements of the script: the composer is invoked exactly
once, with no argument. -/
def scriptCalls : List Arg := [Arg.missing]

/-- Run a list of composer invocations in order, accumulating the writes to
standard output; the run aborts at the first unhandled error. -/
def runScript (calls : List Arg) : Except JSError (List String) :=
  calls.foldlM (fun out a => (greet a).map (fun r => out ++ r.2)) []

/-- Whole-program observable output of running the script. -/
def programOutput : Except JSError (List String) := runScript scriptCalls

/-- Process exit code: `some 0` when the run succeeds, `none` when it dies
with an unhandled fault. -/
def exitCode : Option Nat :=
  match programOutput with
  | Except.ok _ => some 0
  | Except.error _ => none

/-- Two successive runs of the composer on the same input: the pair of their
results.  The composer reads nothing but its argument, so both components
coincide. -/
def runTwice (a : Arg) : Except JSError (JSVal × List String) × Except JSError (JSVal × List String) :=
  (greet a, greet a)

/-- C1: calling the composer `greet` with no input produces exactly the text
`"Hello, World"`, wrapped in the background highlight, as a single write to
standard output (and the call returns `undefined`). -/
theorem greet_no_input :
    greet Arg.missing = Except.ok (JSVal.undef, [bgMagenta "Hello, World"]) := by
  rfl

/-- C2 counterexample: the typed variant reads the property `hello`, not
`greeting`, so on the explicit input with properties `greeting = "Hi"` and
`name = "Alice"` it writes the highlighted `"undefined, Alice"` — not
`"Hi, Alice"` as the claim states for every variant. -/
theorem greetTs_greeting_field_counterexample :
    greetTs (Arg.obj (some "Hi") none (some "Alice"))
      = Except.ok (JSVal.undef, [bgMagenta "undefined, Alice"]) ∧
    bgMagenta "undefined, Alice" ≠ bgMagenta "Hi, Alice" := by
  exact ⟨rfl, by decide⟩

/-- C2 (amended): the plain variant on `greeting = "Hi"`, `name = "Alice"`
produces exactly `"Hi, Alice"`; the typed variant produces `"Hi, Alice"` on
the corresponding input in its own field names (`hello = "Hi"`,
`name = "Alice"`), but produces `"undefined, Alice"` on the input with a
`greeting` property. -/
theorem greet_explicit_input_variants :
    greet (Arg.obj (some "Hi") none (some "Alice"))
      = Except.ok (JSVal.undef, [bgMagenta "Hi, Alice"]) ∧
    greetTs (Arg.obj none (some "Hi") (some "Alice"))
      = Except.ok (JSVal.undef, [bgMagenta "Hi, Alice"]) ∧
    greetTs (Arg.obj (some "Hi") none (some "Alice"))
      = Except.ok (JSVal.undef, [bgMagenta "undefined, Alice"]) := by
  exact ⟨rfl, rfl, rfl⟩

/-- C3: for every input object whose two text fields (`greeting` and `name`)
are present, the plain composer's only effect is one write of the
background-highlighted string `greeting, comma, space, name`, and it returns
no value (`undefined`). -/
theorem greet_both_fields_present (g n : String) (h : Option String) :
    greet (Arg.obj (some g) h (some n))
      = Except.ok (JSVal.undef, [bgMagenta (g ++ ", " ++ n)]) := by
  rfl

/-- C4 counterexample: an object with a missing field is NOT an unhandled
fault — the composer produces a normal output in which the missing field
renders as the text `"undefined"`. -/
theorem greet_missing_field_counterexample :
    greet (Arg.obj (some "Hi") none none)
      = Except.ok (JSVal.undef, [bgMagenta "Hi, undefined"]) ∧
    (greet (Arg.obj (some "Hi") none none)).isOk = true := by
  exact ⟨rfl, rfl⟩

/-- C4 (amended): supplying a `null` input yields a runtime-level `TypeError`
(an unhandled fault, no designed error path); an object with missing fields,
by contrast, does not fault — it yields a normal output in which each missing
field renders as `"undefined"`. -/
theorem greet_invalid_input_amended :
    greet Arg.null
      = Except.error (JSError.typeError "Cannot destructure property of null") ∧
    greet (Arg.obj none none none)
      = Except.ok (JSVal.undef, [bgMagenta "undefined, undefined"]) := by
  exact ⟨rfl, rfl⟩

/-- C5: empty-string fields produce the literal highlighted `", "` and raise
no fault — no validation of non-empty fields is performed. -/
theorem greet_empty_fields :
    greet (Arg.obj (some "") none (some ""))
      = Except.ok (JSVal.undef, [bgMagenta ", "]) := by
  rfl

/-- C6: the composer is deterministic — two runs on the identical input give
identical results; the composer is a function of its argument alone, with no
other state threaded through `runTwice`. -/
theorem greet_deterministic (a : Arg) :
    (runTwice a).1 = (runTwice a).2 := by
  rfl

/-- C7: the script invokes the composer exactly once; the program's only
observable effect is exactly one write (the highlighted `"Hello, World"`
line) to standard output; the process exits 0; and for every input on which
the composer succeeds its return value is `undefined` (it never returns a
value). -/
theorem script_single_call_exit_zero :
    scriptCalls.length = 1 ∧
    programOutput = Except.ok [bgMagenta "Hello, World"] ∧
    exitCode = some 0 ∧
    ∀ a : Arg, Except.map Prod.fst (greet a)
      = Except.map (fun _ => JSVal.undef) (greet a) := by
  refine ⟨rfl, rfl, rfl, ?_⟩
  intro a
  cases a <;> rfl

/-- C8: when the input is omitted the composer falls back to the two provider
constants (`hello = "Hello"`, `world = "World"`): the output is the
highlighted `helloV, comma, space, worldV` for whatever the providers hold;
and for every explicitly supplied structured input the result is independent
of the provider values (the providers are not consulted). -/
theorem greet_defaults_from_providers (hv wv hv2 wv2 : String) (g x n : Option String) :
    hello = "Hello" ∧ world = "World" ∧
    greetWith hv wv Arg.missing
      = Except.ok (JSVal.undef, [bgMagenta (hv ++ ", " ++ wv)]) ∧
    greetWith hv wv (Arg.obj g x n) = greetWith hv2 wv2 (Arg.obj g x n) ∧
    greetWith hv wv Arg.null = greetWith hv2 wv2 Arg.null := by
  exact ⟨rfl, rfl, rfl, rfl, rfl⟩

/-- C9: when only one of the two fields is present the composer does not fall
back to the providers for the missing field: the missing field renders as the
text `"undefined"` in a normal output, no fault is raised, and the result
does not depend on the provider values. -/
theorem greet_one_field_missing (g n : String) (x : Option String) (hv wv : String) :
    greet (Arg.obj (some g) x none)
      = Except.ok (JSVal.undef, [bgMagenta (g ++ ", " ++ "undefined")]) ∧
    greet (Arg.obj none x (some n))
      = Except.ok (JSVal.undef, [bgMagenta ("undefined" ++ ", " ++ n)]) ∧
    greetWith hv wv (Arg.obj (some g) x none) = greet (Arg.obj (some g) x none) := by
  exact ⟨rfl, rfl, rfl⟩

/-- C10: the plain and typed variants are output-equivalent on the default
invocation — both emit the highlighted `"Hello, World"` with no argument —
even though on an explicit input carrying all three modelled properties they
read differently named greeting fields (`greeting` vs `hello`) and so
differ. -/
theorem variants_agree_on_default :
    greetTs Arg.missing = greet Arg.missing ∧
    greet Arg.missing = Except.ok (JSVal.undef, [bgMagenta "Hello, World"]) ∧
    greet (Arg.obj (some "Hi") (some "Yo") (some "Al"))
      = Except.ok (JSVal.undef, [bgMagenta "Hi, Al"]) ∧
    greetTs (Arg.obj (some "Hi") (some "Yo") (some "Al"))
      = Except.ok (JSVal.undef, [bgMagenta "Yo, Al"]) := by
  exact ⟨rfl, rfl, rfl, rfl⟩
